import Mathlib

/-!
Verification development for the session-oriented SSE transport layer of the
hevy-mcp-server repository.  The definitions below are shallow embeddings of
the TypeScript source:

* `SMap` models a JavaScript `Map` with string keys (insertion-ordered
  association list; `set` replaces an existing binding in place);
* `Session`, `sweepSessions`, `validateSession`, `getHandler004`,
  `heartbeatTick004`, `closeHandler004`, `postHandler004` embed the
  session-registry transport variant (`createSSETransport` with rate
  limiting, auth and session middleware);
* `getHandler003`, `closeHandler003`, `postHandler003` embed the
  routing-table transport variant (`createSSETransport` storing
  `SSEServerTransport`s by session id);
* `utf8Bytes`, `sha256Digest`, `timingSafeEqualE`, `secureCompareE` embed
  `secureCompare` from `src/utils/security.ts`;
* `handleRequest` composes the middleware chain of the session-registry
  variant in its source order.

JavaScript string truthiness is modelled explicitly: a header value is an
`Option String`, and the empty string is falsy wherever the source tests
`!x` or `x || y`.
-/

/-- Model of a JavaScript `Map` with string keys: an association list in
insertion order.  All maps in the source start empty and are touched only
through `mapGet`/`mapSet`/`mapDelete`, so keys stay pairwise distinct. -/
abbrev SMap (α : Type) : Type := List (String × α)

/-- `Map.prototype.get`: the value bound to `k`, if any. -/
def mapGet {α : Type} (k : String) : SMap α → Option α
  | [] => none
  | p :: t => if p.1 = k then some p.2 else mapGet k t

/-- `Map.prototype.has`. -/
def mapHas {α : Type} (k : String) (m : SMap α) : Bool :=
  (mapGet k m).isSome

/-- `Map.prototype.set`: replace the existing binding for `k` in place, or
append a new one. -/
def mapSet {α : Type} (k : String) (v : α) : SMap α → SMap α
  | [] => [(k, v)]
  | p :: t => if p.1 = k then (k, v) :: t else p :: mapSet k v t

/-- `Map.prototype.delete` (ignoring the returned Boolean). -/
def mapDelete {α : Type} (k : String) : SMap α → SMap α
  | [] => []
  | p :: t => if p.1 = k then t else p :: mapDelete k t

/-- A session record, as stored in the in-memory `sessions` map
(`part_004`): id, creation time, last-activity time, origin ip. -/
structure Session where
  id : String
  createdAt : Int
  lastActivity : Int
  ip : Option String
deriving Repr, DecidableEq

/-- The hard-coded 30-day constant used by the periodic sweep
(`30 * 24 * 60 * 60 * 1000` milliseconds). -/
def thirtyDays : Int := 30 * 24 * 60 * 60 * 1000

/-- One cycle of the periodic cleanup interval: delete every session whose
inactivity exceeds the hard-coded 30-day constant.  (The sweep lives at
module scope and never sees the configured `sessionTimeout`.) -/
def sweepSessions (now : Int) (sessions : SMap Session) : SMap Session :=
  sessions.filter (fun p => !decide (now - p.2.lastActivity > thirtyDays))

/-- Effective session timeout: `config.sessionTimeout || 30 days`.  JavaScript
`||` also replaces a configured value of `0` by the default. -/
def effectiveTimeout (cfgTimeout : Option Int) : Int :=
  match cfgTimeout with
  | none => thirtyDays
  | some t => if t = 0 then thirtyDays else t

/-- Outcome of the `validateSession` middleware: either fall through to the
next middleware (with the possibly updated registry) or answer 401. -/
inductive VsOutcome where
  | next (sessions : SMap Session)
  | expired401 (sessions : SMap Session)
deriving Repr, DecidableEq

/-- `validateSession` middleware (`part_004`): no header, or an unknown id,
falls through untouched; a known id older than the configured timeout is
deleted and answered 401; a known live id gets its `lastActivity` bumped. -/
def validateSession (sessionTimeout now : Int) (hdr : Option String)
    (sessions : SMap Session) : VsOutcome :=
  match hdr with
  | none => .next sessions
  | some sid =>
    if sid = "" then .next sessions
    else
      match mapGet sid sessions with
      | none => .next sessions
      | some s =>
        if now - s.lastActivity > sessionTimeout then
          .expired401 (mapDelete sid sessions)
        else
          .next (mapSet sid { s with lastActivity := now } sessions)

/-- Result of the `GET <ssePath>` handler of the session-registry variant
(`part_004`): the updated registry, the effective session id, and the
`Mcp-Session-Id` response header (which this handler never sets). -/
structure Get004Result where
  sessions : SMap Session
  sessionId : String
  mcpSessionIdHeader : Option String
deriving Repr, DecidableEq

/-- `GET <ssePath>` handler, session-registry variant (`part_004`):
`sessionId = header || generateSessionId()`; a missing registry entry is
created, an existing one is reused unchanged.  No `Mcp-Session-Id` response
header is written anywhere in this handler. -/
def getHandler004 (hdr : Option String) (fresh : String) (now : Int)
    (ip : Option String) (sessions : SMap Session) : Get004Result :=
  let sid := match hdr with
    | some h => if h = "" then fresh else h
    | none => fresh
  let sessions' :=
    if mapHas sid sessions then sessions
    else mapSet sid { id := sid, createdAt := now, lastActivity := now, ip := ip } sessions
  { sessions := sessions', sessionId := sid, mcpSessionIdHeader := none }

/-- Per-connection lifecycle state of the session-registry variant: whether
the heartbeat interval is still armed and whether the transport binding to
the stream has been released via `transport.close()`. -/
structure Conn004 where
  heartbeatActive : Bool
  transportClosed : Bool
deriving Repr, DecidableEq

/-- One tick of the heartbeat interval (`part_004`): try to write the
keep-alive frame and bump `lastActivity`; any error is caught and answered
only by `clearInterval(heartbeat)` — the transport binding and the session
registry entry are left as they are.  `writeOk` models whether `res.write`
throws.  The function is total: no error escapes the tick. -/
def heartbeatTick004 (writeOk : Bool) (sid : String) (now : Int)
    (conn : Conn004) (sessions : SMap Session) : Conn004 × SMap Session :=
  if writeOk then
    match mapGet sid sessions with
    | some s => (conn, mapSet sid { s with lastActivity := now } sessions)
    | none => (conn, sessions)
  else
    ({ conn with heartbeatActive := false }, sessions)

/-- The `req.on('close')` handler of the session-registry variant
(`part_004`): clear the heartbeat interval, close the transport, and leave
the `sessions` registry untouched ("Don't delete session - allow
reconnection within timeout period"). -/
def closeHandler004 (conn : Conn004) (sessions : SMap Session) :
    Conn004 × SMap Session :=
  ({ heartbeatActive := false, transportClosed := true }, sessions)

/-- The `POST <ssePath>` handler of the session-registry variant
(`part_004`): it inspects nothing and unconditionally answers
`200 {status: 'ok'}`. -/
def postHandler004 : Nat × String :=
  (200, "ok")

/-- Result of the `GET <ssePath>` handler of the routing-table variant
(`part_003`): the updated `transports` routing map and the
`Mcp-Session-Id` response header. -/
structure Get003Result where
  transports : SMap Nat
  mcpSessionIdHeader : Option String
deriving Repr, DecidableEq

/-- `GET <ssePath>` handler, routing-table variant (`part_003`).  The id
under which the connection is registered is `(transport as any).sessionId`,
generated by the freshly constructed `SSEServerTransport` (`tsid`); the
request's own `Mcp-Session-Id` header (`reqHdr`) is never read.  When the
transport id is truthy it is echoed in the `Mcp-Session-Id` response header
and the connection `conn` is stored under it, superseding any previous
binding. -/
def getHandler003 (reqHdr : Option String) (tsid : Option String) (conn : Nat)
    (transports : SMap Nat) : Get003Result :=
  let _ := reqHdr
  match tsid with
  | some sid =>
    if sid = "" then { transports := transports, mcpSessionIdHeader := none }
    else { transports := mapSet sid conn transports, mcpSessionIdHeader := some sid }
  | none => { transports := transports, mcpSessionIdHeader := none }

/-- Result of the `req.on('close')` handler of the routing-table variant. -/
structure Close003Result where
  transports : SMap Nat
  heartbeatActive : Bool
  transportClosed : Bool
deriving Repr, DecidableEq

/-- The `req.on('close')` handler of the routing-table variant
(`part_003`): when the transport id is truthy, `transports.delete(sessionId)`
runs unconditionally — whether or not the routing entry still points at this
connection — then the heartbeat is cleared and the transport closed. -/
def closeHandler003 (tsid : Option String) (transports : SMap Nat) :
    Close003Result :=
  let transports' := match tsid with
    | some sid => if sid = "" then transports else mapDelete sid transports
    | none => transports
  { transports := transports', heartbeatActive := false, transportClosed := true }

/-- The result the protocol engine produces for a delivered message
(`transport.handlePostMessage`): a status and a body, relayed verbatim. -/
structure EngineResult where
  status : Nat
  body : String
deriving Repr, DecidableEq

/-- `sessionId = header || query` with JavaScript truthiness: the header is
used when present and non-empty, else the legacy query parameter when
present and non-empty, else nothing. -/
def effectivePostSessionId (hdr qry : Option String) : Option String :=
  match hdr with
  | some h => if h = "" then
      (match qry with
       | some q => if q = "" then none else some q
       | none => none)
    else some h
  | none =>
    match qry with
    | some q => if q = "" then none else some q
    | none => none

/-- `POST <ssePath>` handler, routing-table variant (`part_003`): 400 when
neither the `Mcp-Session-Id` header nor the legacy `sessionId` query
parameter carries an id, 404 when no transport is registered under the id,
otherwise the message is handed to the engine bound to the registered
connection and its result is relayed. -/
def postHandler003 (engine : Nat → String → EngineResult)
    (hdr qry : Option String) (body : String) (transports : SMap Nat) :
    Nat × String :=
  match effectivePostSessionId hdr qry with
  | none => (400, "Missing sessionId in Mcp-Session-Id header or sessionId query parameter")
  | some sid =>
    match mapGet sid transports with
    | none => (404, "Session not found")
    | some conn => ((engine conn body).status, (engine conn body).body)

/-- UTF-8 encoding of one Unicode scalar value, in arithmetic form
(1 byte below 0x80, 2 below 0x800, 3 below 0x10000, else 4). -/
def utf8EncodeChar (n : Nat) : List Nat :=
  if n < 128 then [n]
  else if n < 2048 then [192 + n / 64, 128 + n % 64]
  else if n < 65536 then [224 + n / 4096, 128 + n / 64 % 64, 128 + n % 64]
  else [240 + n / 262144, 128 + n / 4096 % 64, 128 + n / 64 % 64, 128 + n % 64]

/-- UTF-8 encoding of a sequence of scalar values. -/
def utf8EncodeList (cs : List Nat) : List Nat :=
  (cs.map utf8EncodeChar).flatten

/-- `Buffer.from(s)`: the UTF-8 bytes of `s`. -/
def utf8Bytes (s : String) : List Nat :=
  utf8EncodeList (s.data.map Char.toNat)

/-- The byte count that the first byte of a UTF-8 sequence announces. -/
def utf8LenFromHead (b : Nat) : Nat :=
  if b < 128 then 1 else if b < 224 then 2 else if b < 240 then 3 else 4

/-- Model of `createHash('sha256').update(s).digest()`: an executable
stand-in for the SHA-256 digest.  The only property of the real digest that
`secureCompare` relies on is that its output always has exactly 32 bytes,
which this model shares; the byte values themselves are never inspected
before being discarded. -/
def sha256Digest (s : String) : List Nat :=
  (List.range 32).map (fun i => (utf8Bytes s).foldl (fun h b => (h * 31 + b) % 256) i)

/-- `crypto.timingSafeEqual`: throws (`.error`) when the buffer lengths
differ, otherwise reports byte-wise equality. -/
def timingSafeEqualE (x y : List Nat) : Except String Bool :=
  if x.length = y.length then .ok (decide (x = y))
  else .error "Input buffers must have the same byte length"

/-- `secureCompare` from `src/utils/security.ts`, with exceptions made
explicit (`.error` = a JavaScript throw escaping the function).  Empty
input on either side returns `false`; differing buffer lengths run the
digest comparison (outside any try/catch, so a throw there would escape)
and then return `false`; equal lengths compare inside try/catch. -/
def secureCompareE (a b : String) : Except String Bool :=
  if a = "" ∨ b = "" then .ok false
  else if (utf8Bytes a).length ≠ (utf8Bytes b).length then
    match timingSafeEqualE (sha256Digest a) (sha256Digest b) with
    | .error e => .error e
    | .ok _ => .ok false
  else
    match timingSafeEqualE (utf8Bytes a) (utf8Bytes b) with
    | .ok r => .ok r
    | .error _ => .ok false

/-- The Boolean view of `secureCompare` used by the auth middleware.  It is
total because `secureCompareE` never actually throws (proved below); the
`.error` fallback is unreachable. -/
def secureCompare (a b : String) : Bool :=
  match secureCompareE a b with
  | .ok r => r
  | .error _ => false

/-- The startup configuration fields of `SSETransportConfig` that the
middleware chain reads. -/
structure Config where
  ssePath : String
  authToken : Option String
  sessionTimeout : Option Int
deriving Repr, DecidableEq

/-- An inbound HTTP request, restricted to the fields the chain inspects. -/
structure Req where
  method : String
  path : String
  ip : String
  authorization : Option String
  mcpSessionId : Option String
deriving Repr, DecidableEq

/-- The response-body shapes the handlers produce. -/
inductive Body where
  | empty
  | health (status timestamp transport : String)
  | stream
  | json (error : String)
deriving Repr, DecidableEq

structure Resp where
  status : Nat
  body : Body
deriving Repr, DecidableEq

/-- Server state threaded through requests: the session registry and the
two per-ip rate-limit counters (general limiter and auth limiter) within
the current 15-minute window. -/
structure AppState where
  sessions : SMap Session
  rateCount : SMap Nat
  authRateCount : SMap Nat
deriving Repr, DecidableEq

/-- `authHeader?.replace('Bearer ', '')`.  (`String.replace` replaces every
occurrence where the source replaces only the first; the two agree whenever
the header contains the substring at most once, which covers all uses
here.) -/
def extractToken (authorization : Option String) : Option String :=
  authorization.map (fun h => h.replace "Bearer " "")

/-- Observer: does the `validateSession` middleware reject this request? -/
def sessionRejects (sessionTimeout now : Int) (hdr : Option String)
    (sessions : SMap Session) : Bool :=
  match validateSession sessionTimeout now hdr sessions with
  | .expired401 _ => true
  | .next _ => false

/-- Route dispatch, in registration order: `GET /health`, `GET <ssePath>`
(the SSE stream), `POST <ssePath>`, then express's default 404. -/
def routeRequest (cfg : Config) (now : Int) (timestamp fresh : String)
    (req : Req) (st : AppState) : Resp × AppState :=
  if req.method = "GET" ∧ req.path = "/health" then
    ({ status := 200, body := .health "healthy" timestamp "sse" }, st)
  else if req.method = "GET" ∧ req.path = cfg.ssePath then
    ({ status := 200, body := .stream },
     { st with sessions :=
        (getHandler004 req.mcpSessionId fresh now (some req.ip) st.sessions).sessions })
  else if req.method = "POST" ∧ req.path = cfg.ssePath then
    ({ status := postHandler004.1, body := .json postHandler004.2 }, st)
  else
    ({ status := 404, body := .empty }, st)

/-- The `validateSession` middleware stage, then the routes. -/
def sessionStage (cfg : Config) (now : Int) (timestamp fresh : String)
    (req : Req) (st : AppState) : Resp × AppState :=
  match validateSession (effectiveTimeout cfg.sessionTimeout) now
      req.mcpSessionId st.sessions with
  | .expired401 sessions' =>
    ({ status := 401, body := .json "Session expired" },
     { st with sessions := sessions' })
  | .next sessions' =>
    routeRequest cfg now timestamp fresh req { st with sessions := sessions' }

/-- The auth middleware stage (installed only when an auth token is
configured): `/health` bypasses it entirely; otherwise the stricter auth
rate limiter runs (max 50 per window, with `skipSuccessfulRequests`
modelled as refunding the hit when the token check passes), then the bearer
token is compared with `secureCompare`. -/
def authStage (cfg : Config) (now : Int) (timestamp fresh : String)
    (req : Req) (st : AppState) : Resp × AppState :=
  match cfg.authToken with
  | none => sessionStage cfg now timestamp fresh req st
  | some tok =>
    if req.path = "/health" then sessionStage cfg now timestamp fresh req st
    else
      let acnt := (mapGet req.ip st.authRateCount).getD 0 + 1
      let st' := { st with authRateCount := mapSet req.ip acnt st.authRateCount }
      if acnt > 50 then
        ({ status := 429, body := .json "Too many requests" }, st')
      else
        match extractToken req.authorization with
        | none => ({ status := 401, body := .json "Unauthorized" }, st')
        | some t =>
          if t = "" ∨ ¬ secureCompare t tok then
            ({ status := 401, body := .json "Unauthorized" }, st')
          else
            sessionStage cfg now timestamp fresh req
              { st' with authRateCount := mapSet req.ip (acnt - 1) st'.authRateCount }

/-- One request through the full middleware chain of the session-registry
variant, in source order: CORS (`OPTIONS` short-circuit), the general rate
limiter (path `/health` skipped, fixed window of 1000 per ip), the optional
auth stage, the session stage, the routes.  (Helmet, body parsing, request
timeouts and logging carry no state relevant to any claim and are elided.) -/
def handleRequest (cfg : Config) (now : Int) (timestamp fresh : String)
    (req : Req) (st : AppState) : Resp × AppState :=
  if req.method = "OPTIONS" then ({ status := 200, body := .empty }, st)
  else if req.path = "/health" then authStage cfg now timestamp fresh req st
  else
    let cnt := (mapGet req.ip st.rateCount).getD 0 + 1
    let st1 := { st with rateCount := mapSet req.ip cnt st.rateCount }
    if cnt > 1000 then ({ status := 429, body := .json "Too many requests" }, st1)
    else authStage cfg now timestamp fresh req st1

/-- `n` identical requests in a row (a burst within one rate window). -/
def runRequests (cfg : Config) (now : Int) (timestamp fresh : String)
    (req : Req) : Nat → AppState → AppState
  | 0, st => st
  | n + 1, st =>
    runRequests cfg now timestamp fresh req n
      (handleRequest cfg now timestamp fresh req st).2

theorem mapGet_eq_none {α : Type} (k : String) (m : SMap α)
    (h : k ∉ m.map Prod.fst) : mapGet k m = none := by
  induction m with
  | nil => rfl
  | cons p t ih =>
    simp only [List.map_cons, List.mem_cons, not_or] at h
    simp only [mapGet]
    rw [if_neg (fun hc => h.1 hc.symm)]
    exact ih h.2

theorem mapGet_mapSet_self {α : Type} (k : String) (v : α) (m : SMap α) :
    mapGet k (mapSet k v m) = some v := by
  induction m with
  | nil => simp [mapSet, mapGet]
  | cons p t ih =>
    by_cases h : p.1 = k
    · simp only [mapSet, h, if_true, mapGet]
    · simp only [mapSet, h, if_false, mapGet]
      exact ih

theorem mapGet_mapSet_ne {α : Type} (k k' : String) (v : α) (m : SMap α)
    (h : k ≠ k') : mapGet k' (mapSet k v m) = mapGet k' m := by
  induction m with
  | nil =>
    simp only [mapSet, mapGet]
    rw [if_neg h]
  | cons p t ih =>
    by_cases hp : p.1 = k
    · simp only [mapSet, hp, if_true, mapGet]
      rw [if_neg h, if_neg h]
    · simp only [mapSet, hp, if_false, mapGet]
      rw [ih]

theorem mapGet_mapDelete_self {α : Type} (k : String) (m : SMap α)
    (hnd : (m.map Prod.fst).Nodup) : mapGet k (mapDelete k m) = none := by
  induction m with
  | nil => rfl
  | cons p t ih =>
    simp only [List.map_cons, List.nodup_cons] at hnd
    by_cases h : p.1 = k
    · simp only [mapDelete, h, if_true]
      exact mapGet_eq_none k t (h ▸ hnd.1)
    · simp only [mapDelete, h, if_false, mapGet]
      exact ih hnd.2

theorem mapGet_mapDelete_ne {α : Type} (k k' : String) (m : SMap α)
    (h : k ≠ k') : mapGet k' (mapDelete k m) = mapGet k' m := by
  induction m with
  | nil => rfl
  | cons p t ih =>
    by_cases hp : p.1 = k
    · simp only [mapDelete, hp, if_true, mapGet]
      rw [if_neg h]
    · simp only [mapDelete, hp, if_false, mapGet]
      rw [ih]

theorem mapSet_keys_mem {α : Type} (k x : String) (v : α) (m : SMap α)
    (hx : x ∈ (mapSet k v m).map Prod.fst) : x = k ∨ x ∈ m.map Prod.fst := by
  induction m with
  | nil => simpa [mapSet] using hx
  | cons p t ih =>
    by_cases h : p.1 = k
    · simp only [mapSet, h, if_true, List.map_cons, List.mem_cons] at hx ⊢
      rcases hx with hx | hx
      · exact Or.inl hx
      · exact Or.inr (Or.inr hx)
    · simp only [mapSet, h, if_false, List.map_cons, List.mem_cons] at hx ⊢
      rcases hx with hx | hx
      · exact Or.inr (Or.inl hx)
      · rcases ih hx with hx' | hx'
        · exact Or.inl hx'
        · exact Or.inr (Or.inr hx')

theorem mapSet_keys_nodup {α : Type} (k : String) (v : α) (m : SMap α)
    (hnd : (m.map Prod.fst).Nodup) : ((mapSet k v m).map Prod.fst).Nodup := by
  induction m with
  | nil => simp [mapSet]
  | cons p t ih =>
    simp only [List.map_cons, List.nodup_cons] at hnd
    by_cases h : p.1 = k
    · simp only [mapSet, h, if_true, List.map_cons, List.nodup_cons]
      exact ⟨h ▸ hnd.1, hnd.2⟩
    · simp only [mapSet, h, if_false, List.map_cons, List.nodup_cons]
      refine ⟨fun hc => ?_, ih hnd.2⟩
      rcases mapSet_keys_mem k p.1 v t hc with hc' | hc'
      · exact h hc'
      · exact hnd.1 hc'

theorem keys_filter_not_mem {α : Type} (f : String × α → Bool) (k : String)
    (t : SMap α) (h : k ∉ t.map Prod.fst) : k ∉ (t.filter f).map Prod.fst := by
  intro hc
  rcases List.mem_map.mp hc with ⟨x, hx, hxk⟩
  exact h (List.mem_map.mpr ⟨x, (List.mem_filter.mp hx).1, hxk⟩)

theorem mapGet_filter {α : Type} (f : String × α → Bool) (k : String) (m : SMap α)
    (hnd : (m.map Prod.fst).Nodup) :
    mapGet k (m.filter f) =
      (mapGet k m).bind (fun v => if f (k, v) then some v else none) := by
  induction m with
  | nil => rfl
  | cons p t ih =>
    simp only [List.map_cons, List.nodup_cons] at hnd
    by_cases hk : p.1 = k
    · subst hk
      by_cases hf : f p
      · rw [List.filter_cons_of_pos hf]
        simp [mapGet, hf]
      · rw [List.filter_cons_of_neg hf]
        rw [mapGet_eq_none p.1 (t.filter f) (keys_filter_not_mem f p.1 t hnd.1)]
        simp [mapGet, hf]
    · by_cases hf : f p
      · rw [List.filter_cons_of_pos hf]
        simp only [mapGet, if_neg hk]
        exact ih hnd.2
      · rw [List.filter_cons_of_neg hf]
        have hhead : mapGet k (p :: t) = mapGet k t := by
          simp only [mapGet, if_neg hk]
        rw [hhead]
        exact ih hnd.2

/-- What one sweep cycle does to any single lookup: an entry survives iff its
inactivity is within the hard-coded 30-day constant. -/

theorem mapGet_sweepSessions (now : Int) (k : String) (sessions : SMap Session)
    (hnd : (sessions.map Prod.fst).Nodup) :
    mapGet k (sweepSessions now sessions) =
      (mapGet k sessions).bind
        (fun s => if now - s.lastActivity > thirtyDays then none else some s) := by
  unfold sweepSessions
  rw [mapGet_filter _ k sessions hnd]
  cases mapGet k sessions with
  | none => rfl
  | some s =>
    by_cases hs : now - s.lastActivity > thirtyDays
    · simp [hs]
      omega
    · simp [hs]
      omega

theorem utf8EncodeChar_inj (m n : Nat)
    (h : utf8EncodeChar m = utf8EncodeChar n) : m = n := by
  unfold utf8EncodeChar at h
  split_ifs at h <;> simp_all <;> omega

theorem utf8EncodeChar_ne_nil (n : Nat) : utf8EncodeChar n ≠ [] := by
  unfold utf8EncodeChar
  split_ifs <;> simp

theorem utf8EncodeChar_len (n : Nat) (hn : n < 1114112) :
    ∃ b t, utf8EncodeChar n = b :: t ∧
      (b :: t : List Nat).length = utf8LenFromHead b := by
  unfold utf8EncodeChar
  by_cases h1 : n < 128
  · refine ⟨n, [], by simp [h1], ?_⟩
    simp [utf8LenFromHead, h1]
  · by_cases h2 : n < 2048
    · refine ⟨192 + n / 64, [128 + n % 64], by simp [h1, h2], ?_⟩
      unfold utf8LenFromHead
      rw [if_neg (by omega), if_pos (by omega)]
      rfl
    · by_cases h3 : n < 65536
      · refine ⟨224 + n / 4096, [128 + n / 64 % 64, 128 + n % 64], by simp [h1, h2, h3], ?_⟩
        unfold utf8LenFromHead
        rw [if_neg (by omega), if_neg (by omega), if_pos (by omega)]
        rfl
      · refine ⟨240 + n / 262144, [128 + n / 4096 % 64, 128 + n / 64 % 64, 128 + n % 64],
          by simp [h1, h2, h3], ?_⟩
        unfold utf8LenFromHead
        rw [if_neg (by omega), if_neg (by omega), if_neg (by omega)]
        rfl

theorem utf8EncodeChar_append_inj (m n : Nat) (hm : m < 1114112) (hn : n < 1114112)
    (xs ys : List Nat) (h : utf8EncodeChar m ++ xs = utf8EncodeChar n ++ ys) :
    m = n ∧ xs = ys := by
  obtain ⟨bm, tm, hem, hlm⟩ := utf8EncodeChar_len m hm
  obtain ⟨bn, tn, hen, hln⟩ := utf8EncodeChar_len n hn
  rw [hem, hen] at h
  simp only [List.cons_append, List.cons.injEq] at h
  obtain ⟨hb, ht⟩ := h
  subst hb
  have hlen : tm.length = tn.length := by
    have := hlm.trans hln.symm
    simpa using this
  obtain ⟨htm, hxy⟩ := List.append_inj ht hlen
  refine ⟨utf8EncodeChar_inj m n ?_, hxy⟩
  rw [hem, hen, htm]

theorem utf8EncodeList_inj (cs ds : List Nat)
    (hcs : ∀ c ∈ cs, c < 1114112) (hds : ∀ d ∈ ds, d < 1114112)
    (h : utf8EncodeList cs = utf8EncodeList ds) : cs = ds := by
  induction cs generalizing ds with
  | nil =>
    cases ds with
    | nil => rfl
    | cons d ds' =>
      exfalso
      simp only [utf8EncodeList, List.map_nil, List.flatten, List.map_cons,
        List.flatten_cons] at h
      rcases List.append_eq_nil.mp h.symm with ⟨hnil, -⟩
      exact utf8EncodeChar_ne_nil d hnil
  | cons c cs' ih =>
    cases ds with
    | nil =>
      exfalso
      simp only [utf8EncodeList, List.map_nil, List.flatten, List.map_cons,
        List.flatten_cons] at h
      rcases List.append_eq_nil.mp h with ⟨hnil, -⟩
      exact utf8EncodeChar_ne_nil c hnil
    | cons d ds' =>
      simp only [utf8EncodeList, List.map_cons, List.flatten_cons] at h
      obtain ⟨hcd, hrest⟩ :=
        utf8EncodeChar_append_inj c d (hcs c (List.mem_cons_self c cs'))
          (hds d (List.mem_cons_self d ds')) _ _ h
      have hrec := ih ds' (fun x hx => hcs x (List.mem_cons_of_mem c hx))
        (fun x hx => hds x (List.mem_cons_of_mem d hx)) hrest
      rw [hcd, hrec]

theorem char_toNat_lt (c : Char) : c.toNat < 1114112 := by
  rcases c.valid with h | h
  · exact Nat.lt_trans h (by norm_num)
  · exact h.2

theorem utf8Bytes_inj (a b : String) (h : utf8Bytes a = utf8Bytes b) : a = b := by
  unfold utf8Bytes at h
  have hdata : a.data.map Char.toNat = b.data.map Char.toNat :=
    utf8EncodeList_inj _ _
      (fun x hx => by
        rcases List.mem_map.mp hx with ⟨c, -, rfl⟩
        exact char_toNat_lt c)
      (fun x hx => by
        rcases List.mem_map.mp hx with ⟨c, -, rfl⟩
        exact char_toNat_lt c) h
  have hchars : a.data = b.data := by
    apply List.map_injective_iff.mpr _ hdata
    intro c d hcd
    exact Char.ext (by
      have hval : c.val.toNat = d.val.toNat := hcd
      exact UInt32.ext hval)
  cases a
  cases b
  simp_all

theorem sha256Digest_length (s : String) : (sha256Digest s).length = 32 := by
  simp [sha256Digest]

/-- Full functional characterisation of `secureCompare`: it never throws,
and answers `true` exactly on equal non-empty strings. -/

theorem secureCompareE_eq (a b : String) :
    secureCompareE a b = .ok (decide (a ≠ "" ∧ b ≠ "" ∧ a = b)) := by
  unfold secureCompareE
  by_cases hab : a = "" ∨ b = ""
  · rw [if_pos hab]
    rcases hab with h | h <;> simp [h]
  · rw [if_neg hab]
    push_neg at hab
    by_cases hlen : (utf8Bytes a).length = (utf8Bytes b).length
    · rw [if_neg (fun hc => hc hlen)]
      unfold timingSafeEqualE
      rw [if_pos hlen]
      have hiff : (utf8Bytes a = utf8Bytes b) ↔ (a = b) :=
        ⟨utf8Bytes_inj a b, fun h => by rw [h]⟩
      simp [hab.1, hab.2, hiff]
    · rw [if_pos hlen]
      unfold timingSafeEqualE
      rw [if_pos (by rw [sha256Digest_length, sha256Digest_length])]
      have hne : a ≠ b := fun h => hlen (by rw [h])
      simp [hne]

theorem rateCount_routeRequest (cfg : Config) (now : Int) (timestamp fresh : String)
    (req : Req) (st : AppState) :
    (routeRequest cfg now timestamp fresh req st).2.rateCount = st.rateCount := by
  unfold routeRequest
  split_ifs <;> rfl

theorem rateCount_sessionStage (cfg : Config) (now : Int) (timestamp fresh : String)
    (req : Req) (st : AppState) :
    (sessionStage cfg now timestamp fresh req st).2.rateCount = st.rateCount := by
  unfold sessionStage
  cases validateSession (effectiveTimeout cfg.sessionTimeout) now
      req.mcpSessionId st.sessions with
  | next ss => exact rateCount_routeRequest cfg now timestamp fresh req _
  | expired401 ss => rfl

theorem rateCount_authStage (cfg : Config) (now : Int) (timestamp fresh : String)
    (req : Req) (st : AppState) :
    (authStage cfg now timestamp fresh req st).2.rateCount = st.rateCount := by
  rcases hA : cfg.authToken with _ | tok
  · simp only [authStage, hA]
    exact rateCount_sessionStage cfg now timestamp fresh req st
  · simp only [authStage, hA]
    by_cases hh : req.path = "/health"
    · rw [if_pos hh]
      exact rateCount_sessionStage cfg now timestamp fresh req st
    · rw [if_neg hh]
      by_cases hc : (mapGet req.ip st.authRateCount).getD 0 + 1 > 50
      · rw [if_pos hc]
      · rw [if_neg hc]
        rcases hT : extractToken req.authorization with _ | t
        · simp only [hT]
        · simp only [hT]
          by_cases ht : t = "" ∨ ¬ secureCompare t tok = true
          · rw [if_pos ht]
          · rw [if_neg ht]
            exact rateCount_sessionStage cfg now timestamp fresh req _

theorem rateCount_handleRequest (cfg : Config) (now : Int) (timestamp fresh : String)
    (req : Req) (st : AppState) (hp : req.path ≠ "/health")
    (hm : req.method ≠ "OPTIONS") :
    (handleRequest cfg now timestamp fresh req st).2.rateCount =
      mapSet req.ip ((mapGet req.ip st.rateCount).getD 0 + 1) st.rateCount := by
  unfold handleRequest
  rw [if_neg hm, if_neg hp]
  by_cases hc : (mapGet req.ip st.rateCount).getD 0 + 1 > 1000
  · simp only [hc, if_true]
  · simp only [hc, if_false]
    exact rateCount_authStage cfg now timestamp fresh req _

theorem rateCount_runRequests (cfg : Config) (now : Int) (timestamp fresh : String)
    (req : Req) (hp : req.path ≠ "/health") (hm : req.method ≠ "OPTIONS") :
    ∀ (n : Nat) (st : AppState),
      (mapGet req.ip (runRequests cfg now timestamp fresh req n st).rateCount).getD 0 =
        (mapGet req.ip st.rateCount).getD 0 + n := by
  intro n
  induction n with
  | zero => intro st; simp [runRequests]
  | succ n ih =>
    intro st
    show (mapGet req.ip (runRequests cfg now timestamp fresh req n
        (handleRequest cfg now timestamp fresh req st).2).rateCount).getD 0 = _
    rw [ih]
    rw [rateCount_handleRequest cfg now timestamp fresh req st hp hm]
    rw [mapGet_mapSet_self]
    simp only [Option.getD_some]
    omega

theorem authStage_health (cfg : Config) (now : Int) (ts fresh : String)
    (req : Req) (st : AppState) (hp : req.path = "/health") :
    authStage cfg now ts fresh req st = sessionStage cfg now ts fresh req st := by
  rcases hA : cfg.authToken with _ | tok
  · simp only [authStage, hA]
  · simp only [authStage, hA, if_pos hp]

theorem sessionStage_health (cfg : Config) (now : Int) (ts fresh : String)
    (req : Req) (st : AppState) (hm : req.method = "GET") (hp : req.path = "/health")
    (hsr : sessionRejects (effectiveTimeout cfg.sessionTimeout) now
      req.mcpSessionId st.sessions = false) :
    (sessionStage cfg now ts fresh req st).1 =
      { status := 200, body := .health "healthy" ts "sse" } ∧
    (sessionStage cfg now ts fresh req st).2.rateCount = st.rateCount := by
  unfold sessionRejects at hsr
  unfold sessionStage
  cases hv : validateSession (effectiveTimeout cfg.sessionTimeout) now
      req.mcpSessionId st.sessions with
  | expired401 ss =>
    rw [hv] at hsr
    simp at hsr
  | next ss =>
    constructor
    · show (routeRequest cfg now ts fresh req { st with sessions := ss }).1 = _
      unfold routeRequest
      rw [if_pos ⟨hm, hp⟩]
    · show (routeRequest cfg now ts fresh req { st with sessions := ss }).2.rateCount = _
      rw [rateCount_routeRequest]

theorem handleRequest_health (cfg : Config) (now : Int) (ts fresh : String)
    (req : Req) (st : AppState) (hm : req.method = "GET") (hp : req.path = "/health")
    (hsr : sessionRejects (effectiveTimeout cfg.sessionTimeout) now
      req.mcpSessionId st.sessions = false) :
    (handleRequest cfg now ts fresh req st).1 =
      { status := 200, body := .health "healthy" ts "sse" } ∧
    (handleRequest cfg now ts fresh req st).2.rateCount = st.rateCount := by
  have hno : ¬ req.method = "OPTIONS" := by rw [hm]; decide
  unfold handleRequest
  rw [if_neg hno, if_pos hp]
  rw [authStage_health cfg now ts fresh req st hp]
  exact sessionStage_health cfg now ts fresh req st hm hp hsr

theorem handleRequest_limited (cfg : Config) (now : Int) (ts fresh : String)
    (req : Req) (st : AppState) (hp : req.path ≠ "/health")
    (hm : req.method ≠ "OPTIONS")
    (hc : (mapGet req.ip st.rateCount).getD 0 ≥ 1000) :
    (handleRequest cfg now ts fresh req st).1 =
      { status := 429, body := .json "Too many requests" } := by
  unfold handleRequest
  rw [if_neg hm, if_neg hp]
  have hgt : (mapGet req.ip st.rateCount).getD 0 + 1 > 1000 := by omega
  simp only [hgt, if_true]

/-- C1.  The claim asserts that a GET opening a stream with a live session
id echoes that exact id in the `Mcp-Session-Id` response header and reuses
the registry entry.  What the code does: the session-registry variant
reuses the entry (no second entry is created) but sets no `Mcp-Session-Id`
response header at all; the routing-table variant sets the header, but to
the transport's own freshly generated id, and never reads the request's
header. -/

theorem C1_session_resumption :
    (∀ (sid fresh : String) (now : Int) (ip : Option String)
       (sessions : SMap Session), sid ≠ "" → mapHas sid sessions = true →
       (getHandler004 (some sid) fresh now ip sessions).sessions = sessions ∧
       (getHandler004 (some sid) fresh now ip sessions).sessionId = sid ∧
       (getHandler004 (some sid) fresh now ip sessions).mcpSessionIdHeader = none) ∧
    (∀ (r₁ r₂ tsid : Option String) (conn : Nat) (t : SMap Nat),
       getHandler003 r₁ tsid conn t = getHandler003 r₂ tsid conn t) ∧
    (∀ (sid : String) (r : Option String) (conn : Nat) (t : SMap Nat), sid ≠ "" →
       (getHandler003 r (some sid) conn t).mcpSessionIdHeader = some sid ∧
       mapGet sid (getHandler003 r (some sid) conn t).transports = some conn) := by
  refine ⟨?_, ?_, ?_⟩
  · intro sid fresh now ip sessions hsid hhas
    simp only [getHandler004, if_neg hsid, hhas, if_true]
    exact ⟨trivial, trivial, trivial⟩
  · intro r₁ r₂ tsid conn t
    rfl
  · intro sid r conn t hsid
    simp only [getHandler003, if_neg hsid]
    exact ⟨trivial, mapGet_mapSet_self sid conn t⟩

/-- C1, counterexample: a GET that supplies the live session id `s1` gets a
response whose `Mcp-Session-Id` header is absent, not `s1`. -/

theorem C1_counterexample :
    (getHandler004 (some "s1") "fresh" 5 none
      [("s1", ({ id := "s1", createdAt := 0, lastActivity := 0, ip := none } : Session))]).mcpSessionIdHeader
      ≠ some "s1" := by
  decide

theorem C1_witness :
    (getHandler004 (some "s1") "f" 5 none
      [("s1", ({ id := "s1", createdAt := 0, lastActivity := 0, ip := none } : Session))]).sessions =
      [("s1", ({ id := "s1", createdAt := 0, lastActivity := 0, ip := none } : Session))] ∧
    getHandler003 (some "zzz") (some "t1") 7 [] = getHandler003 none (some "t1") 7 [] ∧
    (getHandler003 none (some "t1") 7 []).mcpSessionIdHeader = some "t1" :=
  ⟨(C1_session_resumption.1 "s1" "f" 5 none _ (by decide) (by decide)).1,
   C1_session_resumption.2.1 (some "zzz") none (some "t1") 7 [],
   (C1_session_resumption.2.2 "t1" none 7 [] (by decide)).1⟩

/-- C2.  In the routing-table variant the POST endpoint behaves exactly as
claimed: 400 when neither the header nor the legacy query parameter carries
an id, 404 when no connection is registered under the id, otherwise the
engine bound to the registered connection handles the message and its
result is relayed; the non-empty header takes precedence over the query
parameter.  The session-registry variant's POST, however, answers
`200 {status: 'ok'}` unconditionally, with no id check at all. -/

theorem C2_post_delivery :
    (∀ (engine : Nat → String → EngineResult) (body : String) (t : SMap Nat),
       postHandler003 engine none none body t =
         (400, "Missing sessionId in Mcp-Session-Id header or sessionId query parameter")) ∧
    (∀ (engine : Nat → String → EngineResult) (hdr qry : Option String)
       (body : String) (t : SMap Nat) (sid : String),
       effectivePostSessionId hdr qry = some sid → mapGet sid t = none →
       postHandler003 engine hdr qry body t = (404, "Session not found")) ∧
    (∀ (engine : Nat → String → EngineResult) (hdr qry : Option String)
       (body : String) (t : SMap Nat) (sid : String) (conn : Nat),
       effectivePostSessionId hdr qry = some sid → mapGet sid t = some conn →
       postHandler003 engine hdr qry body t =
         ((engine conn body).status, (engine conn body).body)) ∧
    (∀ (h : String) (qry : Option String), h ≠ "" →
       effectivePostSessionId (some h) qry = some h) ∧
    postHandler004 = (200, "ok") := by
  refine ⟨?_, ?_, ?_, ?_, rfl⟩
  · intro engine body t
    rfl
  · intro engine hdr qry body t sid hsid hnone
    simp only [postHandler003, hsid, hnone]
  · intro engine hdr qry body t sid conn hsid hconn
    simp only [postHandler003, hsid, hconn]
  · intro h qry hh
    simp only [effectivePostSessionId, if_neg hh]

/-- C2, counterexample: the session-registry variant's POST handler answers
200 even when no session id is supplied anywhere, where the claim demands
400. -/

theorem C2_counterexample : postHandler004.1 = 200 ∧ postHandler004.1 ≠ 400 := by
  decide

theorem C2_witness :
    postHandler003 (fun _ b => ({ status := 200, body := b } : EngineResult)) none none "m" [("s", 7)] =
      (400, "Missing sessionId in Mcp-Session-Id header or sessionId query parameter") ∧
    postHandler003 (fun _ b => ({ status := 200, body := b } : EngineResult)) (some "s2") none "m" [("s", 7)] =
      (404, "Session not found") ∧
    postHandler003 (fun _ b => ({ status := 200, body := b } : EngineResult)) (some "s") none "m" [("s", 7)] =
      (200, "m") ∧
    effectivePostSessionId (some "s") (some "q") = some "s" :=
  ⟨C2_post_delivery.1 _ "m" _,
   C2_post_delivery.2.1 _ (some "s2") none "m" _ "s2" (by decide) (by decide),
   C2_post_delivery.2.2.1 _ (some "s") none "m" _ "s" 7 (by decide) (by decide),
   C2_post_delivery.2.2.2.1 "s" (some "q") (by decide)⟩

/-- C3.  Registering a second stream under an id does supersede the first
(`Map.set` keeps a single binding per id, so the routing table never holds
two connections under one id), but the close path does not check that the
entry still points at the closing connection: `transports.delete(sessionId)`
runs unconditionally, so closing the superseded older connection removes
the newer connection's routing entry as well. -/

theorem C3_routing_supersede :
    (∀ (sid : String) (c₁ c₂ : Nat) (t : SMap Nat),
       mapGet sid (mapSet sid c₂ (mapSet sid c₁ t)) = some c₂) ∧
    (∀ (sid : String) (conn : Nat) (t : SMap Nat), (t.map Prod.fst).Nodup →
       ((mapSet sid conn t).map Prod.fst).Nodup) ∧
    (∀ (sid : String) (t : SMap Nat), sid ≠ "" → (t.map Prod.fst).Nodup →
       mapGet sid (closeHandler003 (some sid) t).transports = none) := by
  refine ⟨?_, ?_, ?_⟩
  · intro sid c₁ c₂ t
    exact mapGet_mapSet_self sid c₂ (mapSet sid c₁ t)
  · intro sid conn t hnd
    exact mapSet_keys_nodup sid conn t hnd
  · intro sid t hsid hnd
    simp only [closeHandler003, if_neg hsid]
    exact mapGet_mapDelete_self sid t hnd

/-- C3, counterexample: after connection 2 supersedes connection 1 under id
`s`, running the older connection's close handler leaves no routing entry
for `s` at all — the newer connection's entry is removed. -/

theorem C3_counterexample :
    mapGet "s" (mapSet "s" 2 [("s", 1)]) = some 2 ∧
    (closeHandler003 (some "s") (mapSet "s" 2 [("s", 1)])).transports = [] ∧
    mapGet "s" (closeHandler003 (some "s") (mapSet "s" 2 [("s", 1)])).transports = none := by
  decide

theorem C3_witness :
    mapGet "a" (mapSet "a" 2 (mapSet "a" 1 [])) = some 2 ∧
    ((mapSet "a" 5 [("b", 9)]).map Prod.fst).Nodup ∧
    mapGet "a" (closeHandler003 (some "a") [("a", 3), ("b", 4)]).transports = none :=
  ⟨C3_routing_supersede.1 "a" 1 2 [],
   C3_routing_supersede.2.1 "a" 5 [("b", 9)] (by decide),
   C3_routing_supersede.2.2 "a" [("a", 3), ("b", 4)] (by decide) (by decide)⟩

/-- C4.  A session older than the configured timeout is rejected and
removed by the lookup-time check, as claimed; but the periodic sweep does
not use the configured `sessionTimeout` — it compares against the
hard-coded 30-day constant, so it removes the session only when the
inactivity also exceeds 30 days.  The two paths agree exactly when
`sessionTimeout` is the 30-day default. -/

theorem C4_expiry :
    ∀ (timeout now : Int) (sid : String) (s : Session) (sessions : SMap Session),
      sid ≠ "" → (sessions.map Prod.fst).Nodup → mapGet sid sessions = some s →
      (now - s.lastActivity > timeout →
        validateSession timeout now (some sid) sessions =
          .expired401 (mapDelete sid sessions) ∧
        mapGet sid (mapDelete sid sessions) = none) ∧
      (mapGet sid (sweepSessions now sessions) =
        if now - s.lastActivity > thirtyDays then none else some s) := by
  intro timeout now sid s sessions hsid hnd hget
  constructor
  · intro hexp
    constructor
    · simp only [validateSession, if_neg hsid, hget, if_pos hexp]
    · exact mapGet_mapDelete_self sid sessions hnd
  · rw [mapGet_sweepSessions now sid sessions hnd, hget]
    rfl

/-- C4, counterexample: with a configured timeout of 1000 ms and a session
idle for 2000 ms, the lookup-time check rejects and deletes the session,
but one sweep cycle leaves it in the registry untouched — the sweep is
bound to the 30-day constant, not to the configured timeout. -/

theorem C4_counterexample :
    validateSession 1000 2000 (some "s")
        [("s", ({ id := "s", createdAt := 0, lastActivity := 0, ip := none } : Session))] =
      .expired401 [] ∧
    sweepSessions 2000 [("s", ({ id := "s", createdAt := 0, lastActivity := 0, ip := none } : Session))] =
      [("s", ({ id := "s", createdAt := 0, lastActivity := 0, ip := none } : Session))] := by
  decide

theorem C4_witness :
    (validateSession 10 20 (some "s")
        [("s", ({ id := "s", createdAt := 0, lastActivity := 0, ip := none } : Session))] =
      .expired401 (mapDelete "s"
        [("s", ({ id := "s", createdAt := 0, lastActivity := 0, ip := none } : Session))]) ∧
     mapGet "s" (mapDelete "s"
        [("s", ({ id := "s", createdAt := 0, lastActivity := 0, ip := none } : Session))]) = none) ∧
    mapGet "s" (sweepSessions 20
        [("s", ({ id := "s", createdAt := 0, lastActivity := 0, ip := none } : Session))]) =
      some { id := "s", createdAt := 0, lastActivity := 0, ip := none } :=
  ⟨(C4_expiry 10 20 "s" { id := "s", createdAt := 0, lastActivity := 0, ip := none }
      _ (by decide) (by decide) (by decide)).1 (by decide),
   (C4_expiry 10 20 "s" { id := "s", createdAt := 0, lastActivity := 0, ip := none }
      _ (by decide) (by decide) (by decide)).2⟩

/-- C5.  On stream closure, the session-registry variant's close handler
cancels the heartbeat, releases the transport binding and leaves the
session registry untouched; the routing-table variant's close handler also
removes the connection's routing entry.  Neither variant deletes a session
record. -/

theorem C5_close_frame :
    (∀ (conn : Conn004) (sessions : SMap Session),
       closeHandler004 conn sessions =
         ({ heartbeatActive := false, transportClosed := true }, sessions)) ∧
    (∀ (sid : String) (t : SMap Nat), sid ≠ "" → (t.map Prod.fst).Nodup →
       (closeHandler003 (some sid) t).heartbeatActive = false ∧
       (closeHandler003 (some sid) t).transportClosed = true ∧
       mapGet sid (closeHandler003 (some sid) t).transports = none) := by
  refine ⟨fun conn sessions => rfl, fun sid t hsid hnd => ⟨rfl, rfl, ?_⟩⟩
  simp only [closeHandler003, if_neg hsid]
  exact mapGet_mapDelete_self sid t hnd

theorem C5_witness :
    closeHandler004 { heartbeatActive := true, transportClosed := false }
        [("s", ({ id := "s", createdAt := 0, lastActivity := 0, ip := none } : Session))] =
      ({ heartbeatActive := false, transportClosed := true },
       [("s", ({ id := "s", createdAt := 0, lastActivity := 0, ip := none } : Session))]) ∧
    mapGet "x" (closeHandler003 (some "x") [("x", 3)]).transports = none :=
  ⟨C5_close_frame.1 { heartbeatActive := true, transportClosed := false } _,
   (C5_close_frame.2 "x" [("x", 3)] (by decide) (by decide)).2.2⟩

/-- C6.  `secureCompare` never throws (every run of `secureCompareE`
returns `.ok`), answers `true` exactly on equal non-empty strings, returns
no-match on an empty side, and on a buffer-length mismatch runs the
comparison of the two fixed-size (32-byte) digests — which cannot throw,
because the digest lengths always agree — before returning `false`. -/

theorem C6_secure_compare :
    ∀ (a b : String),
      secureCompareE a b = .ok (secureCompare a b) ∧
      (secureCompare a b = true ↔ a ≠ "" ∧ b ≠ "" ∧ a = b) ∧
      ((a = "" ∨ b = "") → secureCompare a b = false) ∧
      ((utf8Bytes a).length ≠ (utf8Bytes b).length →
        secureCompareE a b = .ok false ∧
        timingSafeEqualE (sha256Digest a) (sha256Digest b) =
          .ok (decide (sha256Digest a = sha256Digest b))) := by
  intro a b
  have h := secureCompareE_eq a b
  have hb : secureCompare a b = decide (a ≠ "" ∧ b ≠ "" ∧ a = b) := by
    unfold secureCompare
    rw [h]
  refine ⟨?_, ?_, ?_, ?_⟩
  · rw [h, hb]
  · rw [hb]
    simp
  · intro hemp
    rw [hb]
    rcases hemp with h1 | h1 <;> simp [h1]
  · intro hlen
    constructor
    · rw [h]
      have hne : a ≠ b := fun hab => hlen (by rw [hab])
      simp [hne]
    · unfold timingSafeEqualE
      rw [if_pos (by rw [sha256Digest_length, sha256Digest_length])]

theorem C6_witness :
    (secureCompare "token" "token" = true ↔
      ("token" : String) ≠ "" ∧ ("token" : String) ≠ "" ∧
        ("token" : String) = "token") ∧
    secureCompare "" "x" = false ∧
    secureCompareE "ab" "c" = .ok false :=
  ⟨(C6_secure_compare "token" "token").2.1,
   (C6_secure_compare "" "x").2.2.1 (Or.inl rfl),
   ((C6_secure_compare "ab" "c").2.2.2 (by decide)).1⟩

/-- C7.  A failed heartbeat write is caught and answered only by
`clearInterval(heartbeat)`: no error escapes the tick (the function is
total), but the rest of the Closing sequence does not run there — the
transport binding is released, and the routing entry removed, only when the
stream's close event fires (`closeHandler004` / `closeHandler003`). -/

theorem C7_heartbeat_failure :
    (∀ (sid : String) (now : Int) (conn : Conn004) (sessions : SMap Session),
       heartbeatTick004 false sid now conn sessions =
         ({ conn with heartbeatActive := false }, sessions)) ∧
    (∀ (conn : Conn004) (sessions : SMap Session),
       (closeHandler004 conn sessions).1.transportClosed = true) := by
  exact ⟨fun sid now conn sessions => rfl, fun conn sessions => rfl⟩

/-- C7, counterexample: after a failed write the heartbeat timer is
cancelled but the transport binding is still in place — the Closing
sequence did not run. -/

theorem C7_counterexample :
    (heartbeatTick004 false "s" 5 { heartbeatActive := true, transportClosed := false }
      []).1.heartbeatActive = false ∧
    (heartbeatTick004 false "s" 5 { heartbeatActive := true, transportClosed := false }
      []).1.transportClosed = false := by
  decide

/-- C10.  The `validateSession` middleware passes requests through
untouched when the session header is absent (or empty, which JavaScript
treats as absent) or names an unknown id — no error, no session created,
registry unchanged — and the only requests it rejects are those whose id is
known and older than the configured timeout. -/

theorem C10_session_passthrough :
    ∀ (timeout now : Int) (sessions : SMap Session),
      validateSession timeout now none sessions = .next sessions ∧
      validateSession timeout now (some "") sessions = .next sessions ∧
      (∀ sid, sid ≠ "" → mapGet sid sessions = none →
        validateSession timeout now (some sid) sessions = .next sessions) ∧
      (∀ (hdr : Option String) (ss : SMap Session),
        validateSession timeout now hdr sessions = .expired401 ss →
        ∃ sid s, hdr = some sid ∧ mapGet sid sessions = some s ∧
          now - s.lastActivity > timeout) := by
  intro timeout now sessions
  refine ⟨rfl, rfl, ?_, ?_⟩
  · intro sid hsid hnone
    simp only [validateSession, if_neg hsid, hnone]
  · intro hdr ss hre
    cases hdr with
    | none => simp [validateSession] at hre
    | some sid =>
      by_cases hsid : sid = ""
      · rw [hsid] at hre
        simp [validateSession] at hre
      · rcases hget : mapGet sid sessions with _ | s
        · simp [validateSession, hsid, hget] at hre
        · by_cases hexp : now - s.lastActivity > timeout
          · exact ⟨sid, s, rfl, hget, hexp⟩
          · simp [validateSession, hsid, hget, hexp] at hre

theorem C10_witness :
    validateSession 100 5 none [] = .next [] ∧
    validateSession 100 5 (some "nope")
        [("s", ({ id := "s", createdAt := 0, lastActivity := 0, ip := none } : Session))] =
      .next [("s", ({ id := "s", createdAt := 0, lastActivity := 0, ip := none } : Session))] ∧
    (∃ sid s, (some "s" : Option String) = some sid ∧
      mapGet sid [("s", ({ id := "s", createdAt := 0, lastActivity := 0, ip := none } : Session))] =
        some s ∧ (200 : Int) - s.lastActivity > 100) :=
  ⟨(C10_session_passthrough 100 5 []).1,
   (C10_session_passthrough 100 5 _).2.2.1 "nope" (by decide) (by decide),
   (C10_session_passthrough 100 200
      [("s", ({ id := "s", createdAt := 0, lastActivity := 0, ip := none } : Session))]).2.2.2
      (some "s") [] (by decide)⟩

/-- C8.  `GET /health` is exempt from the general rate limiter and from the
auth stage, and a burst on any other path eventually draws the 429
rate-limit response (the 1001st request of a window is rejected); but the
claim's "always 200" is too strong, because the `validateSession`
middleware runs on `/health` too: a request whose header names a
known-but-expired session is answered 401 even on `/health`.  The theorem
states the health behavior under the proviso that the session middleware
does not reject the request. -/

theorem C8_health_exemption :
    (∀ (cfg : Config) (now : Int) (ts fresh : String) (req : Req) (st : AppState),
       req.method = "GET" → req.path = "/health" →
       sessionRejects (effectiveTimeout cfg.sessionTimeout) now
         req.mcpSessionId st.sessions = false →
       (handleRequest cfg now ts fresh req st).1 =
         { status := 200, body := .health "healthy" ts "sse" } ∧
       (handleRequest cfg now ts fresh req st).2.rateCount = st.rateCount) ∧
    (∀ (cfg : Config) (now : Int) (ts fresh : String) (req : Req) (st : AppState),
       req.path ≠ "/health" → req.method ≠ "OPTIONS" →
       (mapGet req.ip st.rateCount).getD 0 ≥ 1000 →
       (handleRequest cfg now ts fresh req st).1 =
         { status := 429, body := .json "Too many requests" }) ∧
    (∀ (cfg : Config) (now : Int) (ts fresh : String) (req : Req)
       (sessions : SMap Session) (auth : SMap Nat),
       req.path ≠ "/health" → req.method ≠ "OPTIONS" →
       (handleRequest cfg now ts fresh req
         (runRequests cfg now ts fresh req 1000
           { sessions := sessions, rateCount := [], authRateCount := auth })).1 =
         { status := 429, body := .json "Too many requests" }) := by
  refine ⟨?_, ?_, ?_⟩
  · intro cfg now ts fresh req st hm hp hsr
    exact handleRequest_health cfg now ts fresh req st hm hp hsr
  · intro cfg now ts fresh req st hp hm hc
    exact handleRequest_limited cfg now ts fresh req st hp hm hc
  · intro cfg now ts fresh req sessions auth hp hm
    apply handleRequest_limited cfg now ts fresh req _ hp hm
    have h1 := rateCount_runRequests cfg now ts fresh req hp hm 1000
      { sessions := sessions, rateCount := [], authRateCount := auth }
    rw [h1]
    omega

/-- C8, counterexample: a first-ever `GET /health` (no rate pressure, no
auth token configured) that carries a known-but-expired session id is
answered 401, not 200. -/

theorem C8_counterexample :
    (handleRequest { ssePath := "/mcp", authToken := none, sessionTimeout := none }
        (thirtyDays + 1) "ts" "fresh"
        { method := "GET", path := "/health", ip := "1.2.3.4",
          authorization := none, mcpSessionId := some "s" }
        { sessions := [("s", ({ id := "s", createdAt := 0, lastActivity := 0, ip := none } : Session))],
          rateCount := [], authRateCount := [] }).1.status = 401 := by
  decide

theorem C8_witness :
    (handleRequest { ssePath := "/mcp", authToken := some "tok", sessionTimeout := some 1000 }
        50 "t" "f"
        { method := "GET", path := "/health", ip := "9.9.9.9",
          authorization := none, mcpSessionId := none }
        { sessions := [], rateCount := [("9.9.9.9", 5000)], authRateCount := [] }).1 =
      { status := 200, body := .health "healthy" "t" "sse" } ∧
    (handleRequest { ssePath := "/mcp", authToken := none, sessionTimeout := none }
        50 "t" "f"
        { method := "POST", path := "/mcp", ip := "9.9.9.9",
          authorization := none, mcpSessionId := none }
        { sessions := [], rateCount := [("9.9.9.9", 1000)], authRateCount := [] }).1 =
      { status := 429, body := .json "Too many requests" } ∧
    (handleRequest { ssePath := "/mcp", authToken := none, sessionTimeout := none }
        50 "t" "f"
        { method := "GET", path := "/x", ip := "1.1.1.1",
          authorization := none, mcpSessionId := none }
        (runRequests { ssePath := "/mcp", authToken := none, sessionTimeout := none }
          50 "t" "f"
          { method := "GET", path := "/x", ip := "1.1.1.1",
            authorization := none, mcpSessionId := none } 1000
          { sessions := [], rateCount := [], authRateCount := [] })).1 =
      { status := 429, body := .json "Too many requests" } :=
  ⟨(C8_health_exemption.1 _ 50 "t" "f" _ _ rfl rfl (by decide)).1,
   C8_health_exemption.2.1 _ 50 "t" "f" _ _ (by decide) (by decide) (by decide),
   C8_health_exemption.2.2 _ 50 "t" "f" _ [] [] (by decide) (by decide)⟩
